import Mathlib

/-!
Shallow embedding of the EDA visualization helpers
(`my_module_data_visualization.py`) and of the project folder scaffold
(`create_project_folders.py`), together with theorems checking the
specification's claims against the embedded code.

Rendering calls (seaborn/matplotlib) are external; they are modelled as an
ordered trace of `Event`s so that "no rendering side effect happened before
the column check" is a statement about that trace.  The pandas
cross-tabulation is modelled from its documented behaviour (null key rows are
dropped), and the aggregation engine is an abstract parameter.
-/

/-- A cell of a column: `none` models a missing (NaN) entry. -/
abbrev Cell := Option String

/-- In-memory tabular dataset: named columns of optional cells. -/
structure DataFrame where
  cols : List (String × List Cell)
deriving DecidableEq

/-- The dataset's column names, mirroring `df.columns`. -/
def DataFrame.columns (df : DataFrame) : List String := df.cols.map Prod.fst

/-- The cells of a named column, mirroring `df[c]` (empty list if absent). -/
def DataFrame.getCol (df : DataFrame) (c : String) : List Cell :=
  (df.cols.lookup c).getD []

/-- Label map, a Python dict of str to str, as an association list. -/
abbrev LabelMap := List (String × String)

/-- Python truthiness of a string: falsy iff empty. -/
def strTruthy (s : String) : Prop := s ≠ ""

instance (s : String) : Decidable (strTruthy s) := by unfold strTruthy; infer_instance

/-- Python truthiness of an optional string: falsy iff None or empty. -/
def optTruthy (v : Option String) : Prop := v.getD "" ≠ ""

instance (v : Option String) : Decidable (optTruthy v) := by unfold optTruthy; infer_instance

/-- Python truthiness of an optional dict: falsy iff None or empty. -/
def labelsTruthy (vl : Option LabelMap) : Prop := vl.getD [] ≠ []

instance (vl : Option LabelMap) : Decidable (labelsTruthy vl) := by unfold labelsTruthy; infer_instance

/-- The ValueError message of the column checks; `k` is the column-kind text
the source interpolates before 列 (empty, "hue", "カテゴリ", "特徴量", "値の"). -/
def missingMsg (k c : String) : String :=
  "指定された" ++ k ++ "列 \x27" ++ c ++ "\x27 がDataFrameに存在しません。"

/-- Python exceptions surfaced by the embedded functions. -/
inductive PyError where
  | valueError (msg : String)
  | engineError (msg : String)
deriving DecidableEq

/-- Frequency cross-tabulation result (`pd.crosstab` without `values`). -/
structure FreqTab where
  rowLabels : List String
  colLabels : List String
  cells : List (List Nat)
deriving DecidableEq

/-- Aggregating cross-tabulation result (`pd.crosstab` with `values`);
empty category pairs hold `none` (NaN). -/
structure AggTab where
  rowLabels : List String
  colLabels : List String
  cells : List (List (Option String))
deriving DecidableEq

/-- Either kind of cross-tabulation result. -/
inductive CrossResult where
  | freq (t : FreqTab)
  | agg (t : AggTab)
deriving DecidableEq

/-- Rendering and computation side effects, in program order. -/
inductive Event where
  | figure
  | jointPlotDrawn (x y hue kind : String)
  | regOverlay (x y : String)
  | violinDrawn (x : Option String) (y : String) (inner : Option String)
  | barDrawn (x y : String) (hue : Option String) (errorBars : Bool)
  | crosstabComputed (t : CrossResult)
  | heatmapDrawn (cbarLabel : String)
  | setCbarLabel (label : String)
  | showFig
deriving DecidableEq

/-- Outcome of one embedded function call: the side-effect trace, the raised
error (if any), and the dataframe and label-map objects after the call. -/
structure RunResult where
  events : List Event
  err : Option PyError
  df : DataFrame
  labels : Option LabelMap
deriving DecidableEq

/-- A raised ValueError: empty trace, the error, and the untouched arguments. -/
def mkErr (df : DataFrame) (vl : Option LabelMap) (m : String) : RunResult :=
  ⟨[], some (.valueError m), df, vl⟩

/-- Label resolution: `variable_labels.get(c, c) if variable_labels else c`. -/
def resolveLabel (vl : Option LabelMap) (c : String) : String :=
  if labelsTruthy vl then ((vl.getD []).lookup c).getD c else c

/-- Rows in which both key columns are non-null (`pd.crosstab` drops the rest). -/
def nonNullPairs (ca cb : List Cell) : List (String × String) :=
  (ca.zip cb).filterMap fun pr =>
    match pr with
    | (some a, some b) => some (a, b)
    | _ => none

/-- Modelled from the spec: `pd.crosstab(df[c1], df[c2])`, the external
frequency cross-tabulation.  Rows with a null key are dropped, row labels are
the distinct values of the first column, column labels of the second, and each
cell counts the occurrences of its label pair. -/
def pd_crosstab_freq (ca cb : List Cell) : FreqTab :=
  let pairs := nonNullPairs ca cb
  let ras := (pairs.map Prod.fst).dedup
  let rbs := (pairs.map Prod.snd).dedup
  { rowLabels := ras
    colLabels := rbs
    cells := ras.map fun a => rbs.map fun b =>
      pairs.countP fun pr => decide (pr.1 = a) && decide (pr.2 = b) }

/-- Modelled from the spec: the external aggregation engine behind
`pd.crosstab(..., values, aggfunc)`.  An aggregation-function name the engine
does not recognize fails at aggregation time with the engine's native
error message `errMsg`. -/
structure AggEngine where
  recognizes : String → Bool
  apply : String → List String → String
  errMsg : String → String

/-- Modelled from the spec: `pd.crosstab(df[c1], df[c2], values, aggfunc)`.
Unsupported aggregation-function names fail with the engine's native error;
category pairs with no observations are undefined (`none`) cells. -/
def pd_crosstab_values (ca cb cv : List Cell) (aggFunc : String)
    (engine : AggEngine) : Except String AggTab :=
  if engine.recognizes aggFunc then
    let triples := ((ca.zip cb).zip cv).filterMap fun x =>
      match x with
      | ((some a, some b), v) => some (a, b, v)
      | _ => none
    let ras := (triples.map fun t => t.1).dedup
    let rbs := (triples.map fun t => t.2.1).dedup
    .ok { rowLabels := ras
          colLabels := rbs
          cells := ras.map fun a => rbs.map fun b =>
            let vals := (triples.filter fun t =>
              decide (t.1 = a) && decide (t.2.1 = b)).filterMap fun t => t.2.2
            if vals.isEmpty then none else some (engine.apply aggFunc vals) }
  else .error (engine.errMsg aggFunc)

/-- Sum of all cells of a frequency cross-tabulation. -/
def sumCells (t : FreqTab) : Nat := (t.cells.map List.sum).sum

/-- Embedding of `eda_scatter_plot`: column checks, jointplot, optional
regression overlay (iff `reg_line` and `kind != 'reg'`), show.  Titles and
font sizes are cosmetic text on the single figure and are not tracked. -/
def eda_scatter_plot (df : DataFrame) (x_col y_col hue_feature : String)
    (kind : String) (reg_line : Bool) (variable_labels : Option LabelMap) :
    RunResult :=
  if x_col ∉ df.columns then mkErr df variable_labels (missingMsg "" x_col)
  else if y_col ∉ df.columns then mkErr df variable_labels (missingMsg "" y_col)
  else if strTruthy hue_feature ∧ hue_feature ∉ df.columns then
    mkErr df variable_labels (missingMsg "hue" hue_feature)
  else
    { events := [Event.jointPlotDrawn x_col y_col hue_feature kind] ++
        (if reg_line ∧ kind ≠ "reg" then [Event.regOverlay x_col y_col] else []) ++
        [Event.showFig]
      err := none
      df := df
      labels := variable_labels }

/-- Embedding of `eda_violin_plot`: column checks, figure, one violin (split
by `hue_feature` when truthy, single otherwise), show. -/
def eda_violin_plot (df : DataFrame) (feature_col : String)
    (hue_feature : Option String) (show_points : Bool)
    (variable_labels : Option LabelMap) : RunResult :=
  if feature_col ∉ df.columns then
    mkErr df variable_labels (missingMsg "" feature_col)
  else if optTruthy hue_feature ∧ hue_feature.getD "" ∉ df.columns then
    mkErr df variable_labels (missingMsg "hue" (hue_feature.getD ""))
  else
    let inner : Option String := if show_points then some "quartile" else none
    { events := [Event.figure] ++
        (if optTruthy hue_feature then
          [Event.violinDrawn hue_feature feature_col inner]
        else [Event.violinDrawn none feature_col inner]) ++ [Event.showFig]
      err := none
      df := df
      labels := variable_labels }

/-- Embedding of `eda_bar_plot`: column checks, figure, barplot (mean bar
heights with optional 95 percent CI error bars), show. -/
def eda_bar_plot (df : DataFrame) (categorical_col feature_col : String)
    (hue_feature : Option String) (show_error_bars : Bool)
    (variable_labels : Option LabelMap) : RunResult :=
  if categorical_col ∉ df.columns then
    mkErr df variable_labels (missingMsg "カテゴリ" categorical_col)
  else if feature_col ∉ df.columns then
    mkErr df variable_labels (missingMsg "特徴量" feature_col)
  else if optTruthy hue_feature ∧ hue_feature.getD "" ∉ df.columns then
    mkErr df variable_labels (missingMsg "hue" (hue_feature.getD ""))
  else
    { events := [Event.figure,
        Event.barDrawn categorical_col feature_col hue_feature show_error_bars,
        Event.showFig]
      err := none
      df := df
      labels := variable_labels }

/-- Embedding of `eda_heatmap_crosstab`: column checks, figure, cross-tab
(frequency, or aggregation through the external engine when `value_col` is
truthy), heatmap with its `cbar_kws` label, then the unconditional
`cbar.set_label('Count')`, show. -/
def eda_heatmap_crosstab (df : DataFrame) (categorical_col1 categorical_col2 : String)
    (value_col : Option String) (agg_func : String) (engine : AggEngine)
    (variable_labels : Option LabelMap) : RunResult :=
  if categorical_col1 ∉ df.columns then
    mkErr df variable_labels (missingMsg "カテゴリ" categorical_col1)
  else if categorical_col2 ∉ df.columns then
    mkErr df variable_labels (missingMsg "カテゴリ" categorical_col2)
  else if optTruthy value_col ∧ value_col.getD "" ∉ df.columns then
    mkErr df variable_labels (missingMsg "値の" (value_col.getD ""))
  else
    let display_value_col : Option String :=
      if labelsTruthy variable_labels ∧ optTruthy value_col then
        some (resolveLabel variable_labels (value_col.getD ""))
      else value_col
    let cbarKws : String :=
      if optTruthy value_col then
        (if strTruthy (display_value_col.getD "") then display_value_col.getD ""
         else "Count") ++ " (" ++ agg_func ++ ")"
      else "Count"
    if optTruthy value_col then
      match pd_crosstab_values (df.getCol categorical_col1)
          (df.getCol categorical_col2) (df.getCol (value_col.getD ""))
          agg_func engine with
      | .error m => ⟨[Event.figure], some (.engineError m), df, variable_labels⟩
      | .ok t =>
        ⟨[Event.figure, Event.crosstabComputed (.agg t),
          Event.heatmapDrawn cbarKws, Event.setCbarLabel "Count", Event.showFig],
         none, df, variable_labels⟩
    else
      let t := pd_crosstab_freq (df.getCol categorical_col1)
        (df.getCol categorical_col2)
      ⟨[Event.figure, Event.crosstabComputed (.freq t),
        Event.heatmapDrawn cbarKws, Event.setCbarLabel "Count", Event.showFig],
       none, df, variable_labels⟩

/-- The label last applied to the heatmap's colorbar: the `cbar_kws` label of
the heatmap call, overridden by any later `set_label`. -/
def finalCbarLabel (evs : List Event) : Option String :=
  (evs.filterMap fun e =>
    match e with
    | .heatmapDrawn l => some l
    | .setCbarLabel l => some l
    | _ => none).getLast?

/-- An absolute filesystem path, as its components. -/
abbrev AbsPath := List String

/-- A caller-supplied base path, absolute or relative. -/
structure BasePath where
  isAbs : Bool
  comps : List String
deriving DecidableEq

/-- Filesystem state: the set of existing directories and the working
directory of the process. -/
structure FS where
  dirs : List AbsPath
  cwd : AbsPath
deriving DecidableEq

/-- All nonempty prefixes of a path (the directories `os.makedirs` ensures). -/
def prefixesOf : List String → List (List String)
  | [] => []
  | a :: rest => [a] :: (prefixesOf rest).map (a :: ·)

/-- `os.makedirs(p, exist_ok=True)`: create the missing components of `p`. -/
def FS.mkdirAll (fs : FS) (p : AbsPath) : FS :=
  { fs with dirs := fs.dirs ++ (prefixesOf p).filter fun q => !(decide (q ∈ fs.dirs)) }

/-- Resolve a base path against the working directory. -/
def resolvePath (cwd : AbsPath) (b : BasePath) : AbsPath :=
  if b.isAbs then b.comps else cwd ++ b.comps

/-- The fixed folder hierarchy of the scaffold. -/
def folders_to_create : List String :=
  ["01_data", "02_document", "03_output", "04_script"]

/-- Returned paths of the scaffold, plus the filesystem state after the call. -/
structure SetupResult where
  fs : FS
  working_directory : AbsPath
  input_path : AbsPath
  output_path : AbsPath
deriving DecidableEq

/-- Embedding of `setup_project_directory`: create the base path, chdir to it,
create the four fixed folders and `01_data/original_data`, and return the
working, input and output paths (the prints are console output only). -/
def setup_project_directory (fs0 : FS) (base : BasePath) : SetupResult :=
  let target := resolvePath fs0.cwd base
  let fs1 := fs0.mkdirAll target
  let fs2 : FS := { fs1 with cwd := target }
  let fs3 := folders_to_create.foldl (fun fs f => fs.mkdirAll (fs.cwd ++ [f])) fs2
  let fs4 := fs3.mkdirAll (fs3.cwd ++ ["01_data", "original_data"])
  let wd := fs4.cwd
  { fs := fs4
    working_directory := wd
    input_path := wd ++ ["01_data"]
    output_path := wd ++ ["03_output"] }

/-- Render an absolute path as the string `os.path.join` produces. -/
def pathToString (p : AbsPath) : String := "/" ++ String.intercalate "/" p

/-- The needle occurs verbatim inside the haystack (the message names the
column). -/
def strContainsP (hay needle : String) : Prop :=
  ∃ s t : List Char, s ++ needle.data ++ t = hay.data

/-- The run raised a ValueError naming a column absent from the dataset, and
performed no rendering or aggregation side effect at all. -/
def raisesMissingFor (df : DataFrame) (r : RunResult) : Prop :=
  r.events = [] ∧ ∃ c, c ∉ df.columns ∧
    ∃ k, r.err = some (.valueError (missingMsg k c)) ∧ strContainsP (missingMsg k c) c

/-- Concrete sample dataset for the witness theorems. -/
def dfW : DataFrame :=
  ⟨[("A", [some "x", some "y", some "x", some "y"]),
    ("B", [some "p", some "q", some "q", some "p"]),
    ("V", [some "1", some "2", some "3", some "4"])]⟩

/-- Concrete sample aggregation engine for the witness theorems. -/
def engW : AggEngine :=
  { recognizes := fun s => s == "count" || s == "mean" || s == "sum"
    apply := fun _ vs => toString vs.length
    errMsg := fun s => "SeriesGroupBy object has no attribute " ++ s }

theorem strContainsP_missingMsg (k c : String) : strContainsP (missingMsg k c) c := by
  refine ⟨("指定された" ++ k ++ "列 \x27").data,
    "\x27 がDataFrameに存在しません。".data, ?_⟩
  simp [missingMsg, String.data_append, List.append_assoc]

theorem raisesMissingFor_mkErr (df : DataFrame) (vl : Option LabelMap) (k c : String)
    (h : c ∉ df.columns) : raisesMissingFor df (mkErr df vl (missingMsg k c)) :=
  ⟨rfl, c, h, k, rfl, strContainsP_missingMsg k c⟩

/-- C6: label resolution is a pure function: it returns the map's value when
the identifier is a key, the identifier itself otherwise (including when no
map is supplied), and resolving twice with the same map yields the same
string. -/
theorem resolve_label_pure (l : LabelMap) (i v : String) :
    (l.lookup i = some v → resolveLabel (some l) i = v) ∧
    (l.lookup i = none → resolveLabel (some l) i = i) ∧
    resolveLabel none i = i ∧
    resolveLabel (some l) i = resolveLabel (some l) i := by
  refine ⟨?_, ?_, ?_, rfl⟩
  · intro h
    have hl : l ≠ [] := by rintro rfl; simp at h
    simp [resolveLabel, labelsTruthy, hl, h]
  · intro h
    by_cases hl : l = []
    · subst hl; simp [resolveLabel, labelsTruthy]
    · simp [resolveLabel, labelsTruthy, hl, h]
  · simp [resolveLabel, labelsTruthy]

theorem resolve_label_pure_witness :
    resolveLabel (some [("a", "A")]) "a" = "A" ∧
    resolveLabel (some [("a", "A")]) "b" = "b" ∧
    resolveLabel none "b" = "b" :=
  ⟨(resolve_label_pure [("a", "A")] "a" "A").1 (by decide),
   (resolve_label_pure [("a", "A")] "b" "b").2.1 (by decide),
   (resolve_label_pure [("a", "A")] "b" "b").2.2.1⟩

/-- C4: whenever a truthy value column is supplied and the heatmap is rendered,
the label finally applied to the colorbar is the hard-coded string "Count",
overriding the value-derived cbar_kws label. -/
theorem heatmap_cbar_label_count (df : DataFrame) (c1 c2 s agg : String)
    (eng : AggEngine) (vl : Option LabelMap)
    (h1 : c1 ∈ df.columns) (h2 : c2 ∈ df.columns) (hs : s ≠ "")
    (hsc : s ∈ df.columns) (hrec : eng.recognizes agg = true) :
    finalCbarLabel (eda_heatmap_crosstab df c1 c2 (some s) agg eng vl).events =
      some "Count" := by
  simp [eda_heatmap_crosstab, h1, h2, hs, hsc, optTruthy, pd_crosstab_values,
    hrec, finalCbarLabel]

theorem heatmap_cbar_label_count_witness :
    finalCbarLabel (eda_heatmap_crosstab dfW "A" "B" (some "V") "mean" engW
      none).events = some "Count" :=
  heatmap_cbar_label_count dfW "A" "B" "V" "mean" engW none (by decide)
    (by decide) (by decide) (by decide) (by decide)

/-- C5: an aggregation-function name the engine does not recognize makes
`eda_heatmap_crosstab` raise the engine's native error at the point the
aggregation is evaluated (after the figure, inside the cross-tabulation
step), and no table is produced. -/
theorem heatmap_unknown_agg_error (df : DataFrame) (c1 c2 s agg : String)
    (eng : AggEngine) (vl : Option LabelMap)
    (h1 : c1 ∈ df.columns) (h2 : c2 ∈ df.columns) (hs : s ≠ "")
    (hsc : s ∈ df.columns) (hrec : eng.recognizes agg = false) :
    (eda_heatmap_crosstab df c1 c2 (some s) agg eng vl).err =
      some (.engineError (eng.errMsg agg)) ∧
    (eda_heatmap_crosstab df c1 c2 (some s) agg eng vl).events = [Event.figure] ∧
    ∀ t, Event.crosstabComputed t ∉
      (eda_heatmap_crosstab df c1 c2 (some s) agg eng vl).events := by
  refine ⟨?_, ?_, ?_⟩ <;>
    simp [eda_heatmap_crosstab, h1, h2, hs, hsc, optTruthy, pd_crosstab_values, hrec]

theorem heatmap_unknown_agg_error_witness :
    (eda_heatmap_crosstab dfW "A" "B" (some "V") "median" engW none).err =
      some (.engineError (engW.errMsg "median")) ∧
    (eda_heatmap_crosstab dfW "A" "B" (some "V") "median" engW none).events =
      [Event.figure] ∧
    ∀ t, Event.crosstabComputed t ∉
      (eda_heatmap_crosstab dfW "A" "B" (some "V") "median" engW none).events :=
  heatmap_unknown_agg_error dfW "A" "B" "V" "median" engW none (by decide)
    (by decide) (by decide) (by decide) (by decide)

/-- C8: a regression line is overlaid on the joint plot iff `reg_line` is true
and `kind` is not 'reg'; in particular for `kind = 'reg'` the value of
`reg_line` never yields an extra overlay. -/
theorem scatter_reg_line_iff (df : DataFrame) (x y hue kind : String)
    (reg : Bool) (vl : Option LabelMap)
    (hx : x ∈ df.columns) (hy : y ∈ df.columns)
    (hhue : strTruthy hue → hue ∈ df.columns) :
    Event.regOverlay x y ∈ (eda_scatter_plot df x y hue kind reg vl).events ↔
      (reg = true ∧ kind ≠ "reg") := by
  have h3 : ¬(strTruthy hue ∧ hue ∉ df.columns) := fun h => h.2 (hhue h.1)
  unfold eda_scatter_plot
  rw [if_neg (by simp [hx]), if_neg (by simp [hy]), if_neg h3]
  by_cases hc : reg = true ∧ kind ≠ "reg"
  · simp [hc]
  · simp only [List.mem_append]
    simp [hc]

theorem scatter_reg_line_iff_witness :
    (Event.regOverlay "A" "B" ∈
        (eda_scatter_plot dfW "A" "B" "" "scatter" true none).events ↔
      (true = true ∧ "scatter" ≠ "reg")) ∧
    (Event.regOverlay "A" "B" ∈
        (eda_scatter_plot dfW "A" "B" "" "reg" true none).events ↔
      (true = true ∧ "reg" ≠ "reg")) :=
  ⟨scatter_reg_line_iff dfW "A" "B" "" "scatter" true none (by decide) (by decide)
      (fun h => absurd rfl h),
   scatter_reg_line_iff dfW "A" "B" "" "reg" true none (by decide) (by decide)
      (fun h => absurd rfl h)⟩

/-- C1: invoking any of the four visualization functions with a required
column name absent from the dataset raises a ValueError whose message names a
missing column, before any figure, rendering or aggregation side effect. -/
theorem missing_column_stops_render (df : DataFrame) (C : String)
    (hC : C ∉ df.columns) (x y hue kind feat cat c2v : String) (reg sp seb : Bool)
    (hueO vO : Option String) (agg : String) (eng : AggEngine)
    (vl : Option LabelMap) :
    raisesMissingFor df (eda_scatter_plot df C y hue kind reg vl) ∧
    raisesMissingFor df (eda_scatter_plot df x C hue kind reg vl) ∧
    raisesMissingFor df (eda_violin_plot df C hueO sp vl) ∧
    raisesMissingFor df (eda_bar_plot df C feat hueO seb vl) ∧
    raisesMissingFor df (eda_bar_plot df cat C hueO seb vl) ∧
    raisesMissingFor df (eda_heatmap_crosstab df C c2v vO agg eng vl) ∧
    raisesMissingFor df (eda_heatmap_crosstab df cat C vO agg eng vl) := by
  refine ⟨?_, ?_, ?_, ?_, ?_, ?_, ?_⟩
  · unfold eda_scatter_plot
    rw [if_pos hC]
    exact raisesMissingFor_mkErr df vl "" C hC
  · by_cases hx : x ∉ df.columns
    · unfold eda_scatter_plot
      rw [if_pos hx]
      exact raisesMissingFor_mkErr df vl "" x hx
    · unfold eda_scatter_plot
      rw [if_neg hx, if_pos hC]
      exact raisesMissingFor_mkErr df vl "" C hC
  · unfold eda_violin_plot
    rw [if_pos hC]
    exact raisesMissingFor_mkErr df vl "" C hC
  · unfold eda_bar_plot
    rw [if_pos hC]
    exact raisesMissingFor_mkErr df vl "カテゴリ" C hC
  · by_cases hcat : cat ∉ df.columns
    · unfold eda_bar_plot
      rw [if_pos hcat]
      exact raisesMissingFor_mkErr df vl "カテゴリ" cat hcat
    · unfold eda_bar_plot
      rw [if_neg hcat, if_pos hC]
      exact raisesMissingFor_mkErr df vl "特徴量" C hC
  · unfold eda_heatmap_crosstab
    rw [if_pos hC]
    exact raisesMissingFor_mkErr df vl "カテゴリ" C hC
  · by_cases hcat : cat ∉ df.columns
    · unfold eda_heatmap_crosstab
      rw [if_pos hcat]
      exact raisesMissingFor_mkErr df vl "カテゴリ" cat hcat
    · unfold eda_heatmap_crosstab
      rw [if_neg hcat, if_pos hC]
      exact raisesMissingFor_mkErr df vl "カテゴリ" C hC

theorem missing_column_stops_render_witness :
    raisesMissingFor dfW (eda_scatter_plot dfW "Z" "A" "" "scatter" true none) ∧
    raisesMissingFor dfW (eda_scatter_plot dfW "A" "Z" "" "scatter" true none) ∧
    raisesMissingFor dfW (eda_violin_plot dfW "Z" none true none) ∧
    raisesMissingFor dfW (eda_bar_plot dfW "Z" "A" none true none) ∧
    raisesMissingFor dfW (eda_bar_plot dfW "A" "Z" none true none) ∧
    raisesMissingFor dfW (eda_heatmap_crosstab dfW "Z" "B" none "count" engW none) ∧
    raisesMissingFor dfW (eda_heatmap_crosstab dfW "A" "Z" none "count" engW none) :=
  missing_column_stops_render dfW "Z" (by decide) "A" "A" "" "scatter" "A" "A" "B"
    true true true none none "count" engW none

theorem sum_map_add {α : Type} (l : List α) (f g : α → Nat) :
    (l.map fun x => f x + g x).sum = (l.map f).sum + (l.map g).sum := by
  induction l with
  | nil => simp
  | cons a t ih => simp [ih]; omega

theorem sum_indicator_eq_zero {κ : Type} [DecidableEq κ] (keys : List κ) (v : κ)
    (hv : v ∉ keys) : (keys.map fun k => if v = k then 1 else 0).sum = 0 := by
  apply List.sum_eq_zero
  intro x hx
  obtain ⟨k, hk, rfl⟩ := List.mem_map.mp hx
  have hvk : v ≠ k := by rintro rfl; exact hv hk
  simp [hvk]

theorem sum_indicator_eq_one {κ : Type} [DecidableEq κ] (keys : List κ) (v : κ)
    (hnd : keys.Nodup) (hv : v ∈ keys) :
    (keys.map fun k => if v = k then 1 else 0).sum = 1 := by
  induction keys with
  | nil => cases hv
  | cons k t ih =>
    rcases List.mem_cons.mp hv with h | h
    · subst h
      simp [sum_indicator_eq_zero t v (List.nodup_cons.mp hnd).1]
    · have hvk : v ≠ k := by rintro rfl; exact (List.nodup_cons.mp hnd).1 h
      simp [hvk, ih (List.nodup_cons.mp hnd).2 h]

theorem partition_count {α κ : Type} [DecidableEq κ] (L : List α) (keys : List κ)
    (f : α → κ) (hnd : keys.Nodup) (hmem : ∀ x ∈ L, f x ∈ keys) :
    (keys.map fun k => L.countP fun x => decide (f x = k)).sum = L.length := by
  induction L with
  | nil => simp
  | cons a t ih =>
    have hm : ∀ x ∈ t, f x ∈ keys := fun x hx => hmem x (List.mem_cons_of_mem _ hx)
    have key : ∀ k : κ, (a :: t).countP (fun x => decide (f x = k)) =
        t.countP (fun x => decide (f x = k)) + (if f a = k then 1 else 0) := by
      intro k
      rw [List.countP_cons]
      by_cases h : f a = k <;> simp [h]
    simp only [key]
    rw [sum_map_add, ih hm,
      sum_indicator_eq_one keys (f a) hnd (hmem a (List.mem_cons_self a t))]
    simp

theorem sumCells_freq (ca cb : List Cell) :
    sumCells (pd_crosstab_freq ca cb) = (nonNullPairs ca cb).length := by
  unfold sumCells pd_crosstab_freq
  simp only [List.map_map]
  have inner : ∀ a : String,
      (((nonNullPairs ca cb).map Prod.snd).dedup.map fun b =>
        (nonNullPairs ca cb).countP fun pr =>
          decide (pr.1 = a) && decide (pr.2 = b)).sum =
      ((nonNullPairs ca cb).filter fun pr => decide (pr.1 = a)).length := by
    intro a
    have h1 : ∀ b, ((nonNullPairs ca cb).countP fun pr =>
        decide (pr.1 = a) && decide (pr.2 = b)) =
        (((nonNullPairs ca cb).filter fun pr => decide (pr.1 = a)).countP
          fun pr => decide (pr.2 = b)) := by
      intro b
      rw [List.countP_filter]
      exact List.countP_congr fun pr _ => by
        simp only [Bool.and_comm]
    simp only [h1]
    exact partition_count _ _ Prod.snd (List.nodup_dedup _) fun pr hpr =>
      List.mem_dedup.mpr (List.mem_map_of_mem _ (List.mem_of_mem_filter hpr))
  have hmap : (List.map (List.sum ∘ fun a =>
      List.map (fun b => (nonNullPairs ca cb).countP fun pr =>
        decide (pr.1 = a) && decide (pr.2 = b))
        ((nonNullPairs ca cb).map Prod.snd).dedup)
      ((nonNullPairs ca cb).map Prod.fst).dedup) =
      List.map (fun a => (nonNullPairs ca cb).countP fun pr => decide (pr.1 = a))
        ((nonNullPairs ca cb).map Prod.fst).dedup := by
    apply List.map_congr_left
    intro a _
    show (List.map _ _).sum = _
    rw [inner a, ← List.countP_eq_length_filter]
  rw [hmap]
  exact partition_count _ _ Prod.fst (List.nodup_dedup _) fun pr hpr =>
    List.mem_dedup.mpr (List.mem_map_of_mem _ hpr)

theorem dedup_length_pair {x y : String} (l : List String) (hxy : x ≠ y)
    (hall : ∀ v ∈ l, v = x ∨ v = y) (hx : x ∈ l) (hy : y ∈ l) :
    l.dedup.length = 2 := by
  have hfin : l.toFinset = {x, y} := by
    ext v
    simp only [List.mem_toFinset, Finset.mem_insert, Finset.mem_singleton]
    constructor
    · intro hv; exact hall v hv
    · rintro (rfl | rfl) <;> assumption
  have hcard : l.dedup.length = ({x, y} : Finset String).card := by
    rw [← List.card_toFinset, hfin]
  rw [hcard, Finset.card_insert_of_not_mem (by simp [hxy]), Finset.card_singleton]

/-- C2 counterexample: the claim as stated fails when a null in one key column
removes a category of the other from the cross-tabulation.  Here A takes
exactly the values x and y, B takes exactly p and q (nulls aside), yet the
frequency cross-tabulation has one row, not two. -/
theorem freq_crosstab_shape_cex :
    (((DataFrame.getCol ⟨[("A", [some "x", some "y", some "y"]),
        ("B", [none, some "p", some "q"])]⟩ "A").filterMap id).dedup =
      ["x", "y"]) ∧
    (((DataFrame.getCol ⟨[("A", [some "x", some "y", some "y"]),
        ("B", [none, some "p", some "q"])]⟩ "B").filterMap id).dedup =
      ["p", "q"]) ∧
    Event.crosstabComputed (.freq (pd_crosstab_freq
      (DataFrame.getCol ⟨[("A", [some "x", some "y", some "y"]),
        ("B", [none, some "p", some "q"])]⟩ "A")
      (DataFrame.getCol ⟨[("A", [some "x", some "y", some "y"]),
        ("B", [none, some "p", some "q"])]⟩ "B"))) ∈
      (eda_heatmap_crosstab ⟨[("A", [some "x", some "y", some "y"]),
        ("B", [none, some "p", some "q"])]⟩ "A" "B" none "count" engW
        none).events ∧
    ¬((pd_crosstab_freq
      (DataFrame.getCol ⟨[("A", [some "x", some "y", some "y"]),
        ("B", [none, some "p", some "q"])]⟩ "A")
      (DataFrame.getCol ⟨[("A", [some "x", some "y", some "y"]),
        ("B", [none, some "p", some "q"])]⟩ "B")).rowLabels.length = 2) := by
  decide

/-- C2 (amended): restricted to the rows where both key columns are non-null,
if A takes exactly the two distinct values x and y and B exactly p and q, then
the frequency cross-tabulation computed by `eda_heatmap_crosstab` with
`value_col = None` has exactly 2 rows and 2 columns and the sum of all cells
equals the number of rows where both columns are non-null. -/
theorem freq_crosstab_2x2_sum (df : DataFrame) (A B x y p q agg : String)
    (eng : AggEngine) (vl : Option LabelMap)
    (hA : A ∈ df.columns) (hB : B ∈ df.columns) (hxy : x ≠ y) (hpq : p ≠ q)
    (hall1 : ∀ pr ∈ nonNullPairs (df.getCol A) (df.getCol B), pr.1 = x ∨ pr.1 = y)
    (hall2 : ∀ pr ∈ nonNullPairs (df.getCol A) (df.getCol B), pr.2 = p ∨ pr.2 = q)
    (hx : x ∈ (nonNullPairs (df.getCol A) (df.getCol B)).map Prod.fst)
    (hy : y ∈ (nonNullPairs (df.getCol A) (df.getCol B)).map Prod.fst)
    (hp : p ∈ (nonNullPairs (df.getCol A) (df.getCol B)).map Prod.snd)
    (hq : q ∈ (nonNullPairs (df.getCol A) (df.getCol B)).map Prod.snd) :
    Event.crosstabComputed (.freq (pd_crosstab_freq (df.getCol A) (df.getCol B))) ∈
      (eda_heatmap_crosstab df A B none agg eng vl).events ∧
    (pd_crosstab_freq (df.getCol A) (df.getCol B)).rowLabels.length = 2 ∧
    (pd_crosstab_freq (df.getCol A) (df.getCol B)).colLabels.length = 2 ∧
    sumCells (pd_crosstab_freq (df.getCol A) (df.getCol B)) =
      (nonNullPairs (df.getCol A) (df.getCol B)).length := by
  refine ⟨?_, ?_, ?_, sumCells_freq _ _⟩
  · simp [eda_heatmap_crosstab, hA, hB, optTruthy]
  · show ((nonNullPairs (df.getCol A) (df.getCol B)).map Prod.fst).dedup.length = 2
    refine dedup_length_pair _ hxy ?_ hx hy
    intro v hv
    obtain ⟨pr, hpr, rfl⟩ := List.mem_map.mp hv
    exact hall1 pr hpr
  · show ((nonNullPairs (df.getCol A) (df.getCol B)).map Prod.snd).dedup.length = 2
    refine dedup_length_pair _ hpq ?_ hp hq
    intro v hv
    obtain ⟨pr, hpr, rfl⟩ := List.mem_map.mp hv
    exact hall2 pr hpr

theorem freq_crosstab_2x2_sum_witness :
    Event.crosstabComputed (.freq (pd_crosstab_freq (dfW.getCol "A")
      (dfW.getCol "B"))) ∈
      (eda_heatmap_crosstab dfW "A" "B" none "count" engW none).events ∧
    (pd_crosstab_freq (dfW.getCol "A") (dfW.getCol "B")).rowLabels.length = 2 ∧
    (pd_crosstab_freq (dfW.getCol "A") (dfW.getCol "B")).colLabels.length = 2 ∧
    sumCells (pd_crosstab_freq (dfW.getCol "A") (dfW.getCol "B")) =
      (nonNullPairs (dfW.getCol "A") (dfW.getCol "B")).length :=
  freq_crosstab_2x2_sum dfW "A" "B" "x" "y" "p" "q" "count" engW none
    (by decide) (by decide) (by decide) (by decide) (by decide) (by decide)
    (by decide) (by decide) (by decide) (by decide)

theorem setup_wd_of_abs (fs0 : FS) (base : BasePath) (h : base.isAbs = true) :
    (setup_project_directory fs0 base).working_directory = base.comps := by
  simp [setup_project_directory, resolvePath, h, folders_to_create, FS.mkdirAll]

/-- C3 counterexample: with a relative base path the second call resolves
against the working directory changed by the first call, so the two calls
return different working-directory path strings. -/
theorem setup_twice_relative_cex :
    pathToString (setup_project_directory
        (setup_project_directory ⟨[], ["home"]⟩ ⟨false, ["proj1"]⟩).fs
        ⟨false, ["proj1"]⟩).working_directory ≠
      pathToString (setup_project_directory ⟨[], ["home"]⟩
        ⟨false, ["proj1"]⟩).working_directory := by
  decide

/-- C3 (amended): for every absolute base path, calling the scaffold twice in
succession raises no error on the second call (directory creation is
idempotent in the model) and both calls return the same three path strings. -/
theorem setup_twice_abs_same_paths (fs0 : FS) (base : BasePath)
    (h : base.isAbs = true) :
    pathToString (setup_project_directory (setup_project_directory fs0 base).fs
        base).working_directory =
      pathToString (setup_project_directory fs0 base).working_directory ∧
    pathToString (setup_project_directory (setup_project_directory fs0 base).fs
        base).input_path =
      pathToString (setup_project_directory fs0 base).input_path ∧
    pathToString (setup_project_directory (setup_project_directory fs0 base).fs
        base).output_path =
      pathToString (setup_project_directory fs0 base).output_path := by
  have hw : ∀ fs : FS, (setup_project_directory fs base).working_directory =
      base.comps := fun fs => setup_wd_of_abs fs base h
  have hi : ∀ fs : FS, (setup_project_directory fs base).input_path =
      base.comps ++ ["01_data"] := by
    intro fs
    simp [setup_project_directory, resolvePath, h, folders_to_create, FS.mkdirAll]
  have ho : ∀ fs : FS, (setup_project_directory fs base).output_path =
      base.comps ++ ["03_output"] := by
    intro fs
    simp [setup_project_directory, resolvePath, h, folders_to_create, FS.mkdirAll]
  refine ⟨?_, ?_, ?_⟩
  · rw [hw, hw]
  · rw [hi, hi]
  · rw [ho, ho]

theorem setup_twice_abs_same_paths_witness :
    pathToString (setup_project_directory (setup_project_directory ⟨[], []⟩
        ⟨true, ["tmp", "proj1"]⟩).fs ⟨true, ["tmp", "proj1"]⟩).working_directory =
      pathToString (setup_project_directory ⟨[], []⟩
        ⟨true, ["tmp", "proj1"]⟩).working_directory ∧
    pathToString (setup_project_directory (setup_project_directory ⟨[], []⟩
        ⟨true, ["tmp", "proj1"]⟩).fs ⟨true, ["tmp", "proj1"]⟩).input_path =
      pathToString (setup_project_directory ⟨[], []⟩
        ⟨true, ["tmp", "proj1"]⟩).input_path ∧
    pathToString (setup_project_directory (setup_project_directory ⟨[], []⟩
        ⟨true, ["tmp", "proj1"]⟩).fs ⟨true, ["tmp", "proj1"]⟩).output_path =
      pathToString (setup_project_directory ⟨[], []⟩
        ⟨true, ["tmp", "proj1"]⟩).output_path :=
  setup_twice_abs_same_paths ⟨[], []⟩ ⟨true, ["tmp", "proj1"]⟩ rfl

/-- C7: called with the absolute base path `/tmp/proj1` (components
`["tmp", "proj1"]`), the scaffold creates `/tmp/proj1/01_data/original_data`
and the other fixed subdirectories on disk, and returns an input path string
`/tmp/proj1/01_data` and an output path string `/tmp/proj1/03_output`. -/
theorem setup_tmp_proj1_paths :
    ["tmp", "proj1", "01_data", "original_data"] ∈
      (setup_project_directory ⟨[], ["home"]⟩ ⟨true, ["tmp", "proj1"]⟩).fs.dirs ∧
    ["tmp", "proj1", "01_data"] ∈
      (setup_project_directory ⟨[], ["home"]⟩ ⟨true, ["tmp", "proj1"]⟩).fs.dirs ∧
    ["tmp", "proj1", "02_document"] ∈
      (setup_project_directory ⟨[], ["home"]⟩ ⟨true, ["tmp", "proj1"]⟩).fs.dirs ∧
    ["tmp", "proj1", "03_output"] ∈
      (setup_project_directory ⟨[], ["home"]⟩ ⟨true, ["tmp", "proj1"]⟩).fs.dirs ∧
    ["tmp", "proj1", "04_script"] ∈
      (setup_project_directory ⟨[], ["home"]⟩ ⟨true, ["tmp", "proj1"]⟩).fs.dirs ∧
    pathToString (setup_project_directory ⟨[], ["home"]⟩
      ⟨true, ["tmp", "proj1"]⟩).input_path = "/tmp/proj1/01_data" ∧
    pathToString (setup_project_directory ⟨[], ["home"]⟩
      ⟨true, ["tmp", "proj1"]⟩).output_path = "/tmp/proj1/03_output" := by
  decide

/-- C9: no visualization function mutates its inputs: the dataframe and label
map after each call are the ones passed in, and the heatmap's
cross-tabulation, when one is computed without a value column, is freshly
derived from the dataframe's two key columns alone. -/
theorem eda_no_mutation (df : DataFrame) (x y hue kind feat cat c1 c2 agg : String)
    (reg sp seb : Bool) (hueO vO : Option String) (eng : AggEngine)
    (vl : Option LabelMap) :
    ((eda_scatter_plot df x y hue kind reg vl).df = df ∧
     (eda_scatter_plot df x y hue kind reg vl).labels = vl) ∧
    ((eda_violin_plot df feat hueO sp vl).df = df ∧
     (eda_violin_plot df feat hueO sp vl).labels = vl) ∧
    ((eda_bar_plot df cat feat hueO seb vl).df = df ∧
     (eda_bar_plot df cat feat hueO seb vl).labels = vl) ∧
    ((eda_heatmap_crosstab df c1 c2 vO agg eng vl).df = df ∧
     (eda_heatmap_crosstab df c1 c2 vO agg eng vl).labels = vl) ∧
    (∀ t, Event.crosstabComputed (.freq t) ∈
        (eda_heatmap_crosstab df c1 c2 vO agg eng vl).events →
      t = pd_crosstab_freq (df.getCol c1) (df.getCol c2)) := by
  refine ⟨⟨?_, ?_⟩, ⟨?_, ?_⟩, ⟨?_, ?_⟩, ⟨?_, ?_⟩, ?_⟩
  · unfold eda_scatter_plot; repeat' split
    all_goals rfl
  · unfold eda_scatter_plot; repeat' split
    all_goals rfl
  · unfold eda_violin_plot; repeat' split
    all_goals rfl
  · unfold eda_violin_plot; repeat' split
    all_goals rfl
  · unfold eda_bar_plot; repeat' split
    all_goals rfl
  · unfold eda_bar_plot; repeat' split
    all_goals rfl
  · unfold eda_heatmap_crosstab; repeat' split
    all_goals rfl
  · unfold eda_heatmap_crosstab; repeat' split
    all_goals rfl
  · intro t ht
    unfold eda_heatmap_crosstab at ht
    repeat' split at ht
    all_goals simp_all [mkErr]

theorem eda_no_mutation_witness :
    ((eda_scatter_plot dfW "A" "B" "" "scatter" true none).df = dfW ∧
     (eda_scatter_plot dfW "A" "B" "" "scatter" true none).labels = none) ∧
    ((eda_violin_plot dfW "A" none true none).df = dfW ∧
     (eda_violin_plot dfW "A" none true none).labels = none) ∧
    ((eda_bar_plot dfW "A" "V" none true none).df = dfW ∧
     (eda_bar_plot dfW "A" "V" none true none).labels = none) ∧
    ((eda_heatmap_crosstab dfW "A" "B" none "count" engW none).df = dfW ∧
     (eda_heatmap_crosstab dfW "A" "B" none "count" engW none).labels = none) ∧
    pd_crosstab_freq (dfW.getCol "A") (dfW.getCol "B") =
      pd_crosstab_freq (dfW.getCol "A") (dfW.getCol "B") := by
  have h := eda_no_mutation dfW "A" "B" "" "scatter" "A" "A" "A" "B" "count"
    true true true none none engW none
  exact ⟨h.1, h.2.1,
    ⟨(eda_no_mutation dfW "A" "B" "" "scatter" "A" "A" "V" "B" "count"
        true true true none none engW none).2.2.1.1,
     (eda_no_mutation dfW "A" "B" "" "scatter" "A" "A" "V" "B" "count"
        true true true none none engW none).2.2.1.2⟩,
    h.2.2.2.1,
    (h.2.2.2.2 (pd_crosstab_freq (dfW.getCol "A") (dfW.getCol "B"))
      (by decide)).symm ▸ rfl⟩

/-- C10: optional column-name parameters are membership-checked only when
truthy: an empty-string hue (or value column) raises no error even though the
empty string is not a column, and in `eda_heatmap_crosstab` an empty-string
`value_col` behaves exactly as `value_col = None`, falling back to the
frequency cross-tabulation. -/
theorem falsy_optional_cols_skip_check (df : DataFrame)
    (x y feat cat c1 c2 kind agg : String) (reg sp seb : Bool)
    (eng : AggEngine) (vl : Option LabelMap)
    (hx : x ∈ df.columns) (hy : y ∈ df.columns) (hf : feat ∈ df.columns)
    (hc : cat ∈ df.columns) :
    (eda_scatter_plot df x y "" kind reg vl).err = none ∧
    (eda_violin_plot df feat (some "") sp vl).err = none ∧
    (eda_bar_plot df cat feat (some "") seb vl).err = none ∧
    eda_heatmap_crosstab df c1 c2 (some "") agg eng vl =
      eda_heatmap_crosstab df c1 c2 none agg eng vl := by
  refine ⟨?_, ?_, ?_, ?_⟩
  · simp [eda_scatter_plot, hx, hy, strTruthy]
  · simp [eda_violin_plot, hf, optTruthy]
  · simp [eda_bar_plot, hc, hf, optTruthy]
  · simp [eda_heatmap_crosstab, optTruthy]

theorem falsy_optional_cols_skip_check_witness :
    (eda_scatter_plot dfW "A" "B" "" "scatter" true none).err = none ∧
    (eda_violin_plot dfW "A" (some "") true none).err = none ∧
    (eda_bar_plot dfW "A" "V" (some "") true none).err = none ∧
    eda_heatmap_crosstab dfW "A" "B" (some "") "count" engW none =
      eda_heatmap_crosstab dfW "A" "B" none "count" engW none :=
  falsy_optional_cols_skip_check dfW "A" "B" "V" "A" "A" "B" "scatter" "count"
    true true true engW none (by decide) (by decide) (by decide) (by decide)
